import Mathlib

/-!
Verification of the UT325F thermometer frame reader and decoder.

The development shallowly embeds the two core components of the program:

* the frame decoder `Reading.parse` (from `src/reading.rs`), a pure function
  from a 56-byte buffer to a decoded reading or a decode error; and
* the frame reader `Meter.read` (from `src/meter.rs`), which scans a serial
  byte stream for the 5-byte sync marker under a deadline, reads the rest of
  the frame, and decodes it.

Modelling conventions:

* Bytes are `Nat` (values < 256 in practice; none of the code depends on the
  bound).  Multi-byte fields are assembled little-endian exactly as
  `f32::from_le_bytes` / `u16::from_le_bytes` / `u32::from_le_bytes` do.
* `f32` values are represented by their 32-bit patterns (a `Nat`); the decoder
  never performs floating-point arithmetic, it only reassembles bytes into a
  bit pattern and sometimes replaces it with the quiet-NaN constant
  `f32::NAN = 0x7FC00000`.  `isNaN32` is the IEEE-754 single-precision NaN
  predicate on bit patterns (exponent all ones, mantissa nonzero).
* `SystemTime::now()` in `Reading::parse` is modelled by an explicit `now`
  parameter; `Instant` arithmetic in `Meter::read` by an explicit
  millisecond clock threaded through the port state.
* The serial stream is a finite list of `(arrivalTimeMs, byte)` pairs with
  nondecreasing arrival times; a `read_exact` that needs a byte which has not
  arrived within the port's timeout of the current clock fails with a
  timed-out error, advancing the clock by the timeout, exactly as the
  1-second per-operation timeout of the `serialport` crate behaves.  A
  finite stream models a device that eventually stalls forever.
-/

/-- `HoldType` from `src/reading.rs`: the closed enumeration of hold
semantics. -/
inductive HoldType
  | Current
  | Maximum
  | Minimum
  | Average
deriving DecidableEq, Repr

/-- `TryFrom<u8> for HoldType` from `src/reading.rs`: 0, 1, 2, 3 map to the
four variants, everything else is rejected (`Err(())`, here `none`). -/
def HoldType.tryFrom (value : Nat) : Option HoldType :=
  match value with
  | 0 => some HoldType.Current
  | 1 => some HoldType.Maximum
  | 2 => some HoldType.Minimum
  | 3 => some HoldType.Average
  | _ => none

/-- The distinct error values `Reading::parse` can produce, one per `anyhow!`
message in `src/reading.rs`: "Incorrect buffer size", "Bad sync header",
"Invalid HoldType", "Failed to parse all bytes", "Read beyond buffer" (the
last comes from the unpack helpers). -/
inductive DecodeError
  | wrongSize
  | badSync
  | invalidHoldType
  | incompleteParse
  | readBeyondBuffer
deriving DecidableEq, Repr

/-- `Reading` from `src/reading.rs`.  Temperatures are f32 bit patterns; the
timestamp is the (model) clock value at which `parse` was invoked. -/
structure Reading where
  timestamp : Nat
  current_temps_c : List Nat
  held_temps_c : List Nat
  hold_type : HoldType
  meter_temp_c : Nat
deriving DecidableEq, Repr

namespace Reading

/-- `Reading::N_BYTES`. -/
def N_BYTES : Nat := 56

/-- `Reading::SYNC`, the 5-byte sync marker `AA 55 00 34 01`. -/
def SYNC : List Nat := [0xaa, 0x55, 0x00, 0x34, 0x01]

/-- `Reading::N_SYNC_BYTES`. -/
def N_SYNC_BYTES : Nat := 5

/-- Bit pattern of `f32::NAN` (the canonical quiet NaN). -/
def NAN32 : Nat := 0x7FC00000

/-- IEEE-754 single precision "is NaN" on a 32-bit pattern: exponent bits
(23..30) all ones and mantissa bits (0..22) not all zero. -/
def isNaN32 (bits : Nat) : Prop :=
  (bits / 2 ^ 23) % 256 = 255 ∧ bits % 2 ^ 23 ≠ 0

instance (bits : Nat) : Decidable (isNaN32 bits) := by
  unfold isNaN32; infer_instance

/-- `Reading::unpack_f32`: bounds check, then little-endian 32-bit
reassembly (the f32 bit pattern), returning the value and advanced cursor. -/
def unpack_f32 (buf : List Nat) (offset : Nat) : Except DecodeError (Nat × Nat) :=
  if offset + 4 > buf.length then
    Except.error DecodeError.readBeyondBuffer
  else
    Except.ok
      (buf.getD offset 0 + buf.getD (offset + 1) 0 * 256 +
        buf.getD (offset + 2) 0 * 65536 + buf.getD (offset + 3) 0 * 16777216,
       offset + 4)

/-- `Reading::unpack_u8`: bounds check, then one byte. -/
def unpack_u8 (buf : List Nat) (offset : Nat) : Except DecodeError (Nat × Nat) :=
  if offset + 1 > buf.length then
    Except.error DecodeError.readBeyondBuffer
  else
    Except.ok (buf.getD offset 0, offset + 1)

/-- `Reading::unpack_u16`: bounds check, then little-endian 16-bit value. -/
def unpack_u16 (buf : List Nat) (offset : Nat) : Except DecodeError (Nat × Nat) :=
  if offset + 2 > buf.length then
    Except.error DecodeError.readBeyondBuffer
  else
    Except.ok (buf.getD offset 0 + buf.getD (offset + 1) 0 * 256, offset + 2)

/-- `Reading::unpack_u32`: bounds check, then little-endian 32-bit value. -/
def unpack_u32 (buf : List Nat) (offset : Nat) : Except DecodeError (Nat × Nat) :=
  if offset + 4 > buf.length then
    Except.error DecodeError.readBeyondBuffer
  else
    Except.ok
      (buf.getD offset 0 + buf.getD (offset + 1) 0 * 256 +
        buf.getD (offset + 2) 0 * 65536 + buf.getD (offset + 3) 0 * 16777216,
       offset + 4)

/-- `Reading::parse` from `src/reading.rs`, step for step: length check, sync
check, four current floats then four current error flags (a nonzero flag
overwrites the channel with `f32::NAN`), the same for the held channels,
meter temperature, the skipped unknown u32, the hold-type byte through
`HoldType::try_from`, the skipped u16 trailer, and the final cursor
assertion.  `now` stands for the `SystemTime::now()` call. -/
def parse (now : Nat) (buf : List Nat) : Except DecodeError Reading :=
  if buf.length ≠ N_BYTES then Except.error DecodeError.wrongSize
  else if buf.take N_SYNC_BYTES ≠ SYNC then Except.error DecodeError.badSync
  else do
    let o := N_SYNC_BYTES
    let (c0, o) ← unpack_f32 buf o
    let (c1, o) ← unpack_f32 buf o
    let (c2, o) ← unpack_f32 buf o
    let (c3, o) ← unpack_f32 buf o
    let (e0, o) ← unpack_u8 buf o
    let c0 := if e0 ≠ 0 then NAN32 else c0
    let (e1, o) ← unpack_u8 buf o
    let c1 := if e1 ≠ 0 then NAN32 else c1
    let (e2, o) ← unpack_u8 buf o
    let c2 := if e2 ≠ 0 then NAN32 else c2
    let (e3, o) ← unpack_u8 buf o
    let c3 := if e3 ≠ 0 then NAN32 else c3
    let (h0, o) ← unpack_f32 buf o
    let (h1, o) ← unpack_f32 buf o
    let (h2, o) ← unpack_f32 buf o
    let (h3, o) ← unpack_f32 buf o
    let (g0, o) ← unpack_u8 buf o
    let h0 := if g0 ≠ 0 then NAN32 else h0
    let (g1, o) ← unpack_u8 buf o
    let h1 := if g1 ≠ 0 then NAN32 else h1
    let (g2, o) ← unpack_u8 buf o
    let h2 := if g2 ≠ 0 then NAN32 else h2
    let (g3, o) ← unpack_u8 buf o
    let h3 := if g3 ≠ 0 then NAN32 else h3
    let (meter_temp_c, o) ← unpack_f32 buf o
    let (_, o) ← unpack_u32 buf o
    let (hold_type_raw, o) ← unpack_u8 buf o
    let hold_type ← match HoldType.tryFrom hold_type_raw with
      | some h => Except.ok h
      | none => Except.error DecodeError.invalidHoldType
    let (_, o) ← unpack_u16 buf o
    if o = N_BYTES then
      Except.ok
        { timestamp := now
          current_temps_c := [c0, c1, c2, c3]
          held_temps_c := [h0, h1, h2, h3]
          hold_type := hold_type
          meter_temp_c := meter_temp_c }
    else
      Except.error DecodeError.incompleteParse

end Reading

/-- The single transport-level I/O failure the model generates:
`std::io::ErrorKind::TimedOut` from the serialport crate's bounded reads. -/
inductive IoErr
  | timedOut
deriving DecidableEq, Repr

/-- State of the opened serial port: the not-yet-consumed byte stream as
`(arrival time in ms, byte)` pairs with nondecreasing arrival times, and the
current clock in ms.  A finite stream models a device that eventually stalls
forever. -/
structure PortState where
  stream : List (Nat × Nat)
  clock : Nat
deriving DecidableEq, Repr

/-- The per-operation transport timeout set by `Meter::open`
(`.timeout(Duration::from_secs(1))`), in ms. -/
def TRANSPORT_TIMEOUT_MS : Nat := 1000

/-- The synchronization deadline `Meter::new` stores in `_sync_timeout`
(`Duration::from_secs(5)`), in ms. -/
def SYNC_TIMEOUT_MS : Nat := 5000

/-- `serial.read_exact(&mut buf)` for an `n`-byte buffer.  Following
`std::io::Read::read_exact` over the serialport crate's timed read: bytes are
taken one at a time; each successive byte must become available within
`TRANSPORT_TIMEOUT_MS` of the current clock (the clock advances to each
byte's arrival time as it is taken), otherwise the read fails with
`TimedOut` after waiting out the timeout, with the bytes read so far already
consumed from the stream. -/
def readExact (port : PortState) (n : Nat) : Except IoErr (List Nat) × PortState :=
  match n with
  | 0 => (Except.ok [], port)
  | Nat.succ m =>
    match port.stream with
    | [] =>
      (Except.error IoErr.timedOut,
       { port with clock := port.clock + TRANSPORT_TIMEOUT_MS })
    | (a, b) :: rest =>
      if a ≤ port.clock + TRANSPORT_TIMEOUT_MS then
        match readExact { stream := rest, clock := max port.clock a } m with
        | (Except.ok bs, port2) => (Except.ok (b :: bs), port2)
        | (Except.error e, port2) => (Except.error e, port2)
      else
        (Except.error IoErr.timedOut,
         { port with clock := port.clock + TRANSPORT_TIMEOUT_MS })

/-- A successful `readExact` consumes exactly `n` bytes, returns exactly `n`
bytes, and never moves the clock backwards. -/
theorem readExact_ok (port : PortState) (n : Nat) (bs : List Nat) (port2 : PortState)
    (h : readExact port n = (Except.ok bs, port2)) :
    port2.stream.length + n = port.stream.length ∧ bs.length = n ∧
      port.clock ≤ port2.clock := by
  induction n generalizing port bs port2 with
  | zero =>
    simp only [readExact, Prod.mk.injEq, Except.ok.injEq] at h
    obtain ⟨h1, h2⟩ := h
    subst h1; subst h2
    simp
  | succ m ih =>
    simp only [readExact] at h
    split at h
    · simp at h
    · rename_i a b rest heq
      split at h
      · split at h
        · rename_i ha hm bs2 port3 hr
          simp only [Prod.mk.injEq, Except.ok.injEq] at h
          obtain ⟨h1, h2⟩ := h
          subst h1; subst h2
          obtain ⟨hl, hbl, hc⟩ := ih _ _ _ hr
          refine ⟨?_, ?_, ?_⟩
          · rw [heq]
            simp only [List.length_cons]
            simp at hl
            omega
          · simp [hbl]
          · exact le_trans (le_max_left _ _) hc
        · simp at h
      · simp at h

/-- A failed `readExact` advances the clock by at least the transport
timeout and never grows the stream. -/
theorem readExact_err (port : PortState) (n : Nat) (e : IoErr) (port2 : PortState)
    (h : readExact port n = (Except.error e, port2)) :
    port.clock + TRANSPORT_TIMEOUT_MS ≤ port2.clock ∧
      port2.stream.length ≤ port.stream.length := by
  induction n generalizing port port2 with
  | zero => simp [readExact] at h
  | succ m ih =>
    simp only [readExact] at h
    split at h
    · rename_i heq
      simp only [Prod.mk.injEq, Except.error.injEq] at h
      obtain ⟨h1, h2⟩ := h
      subst h2
      simp [heq]
    · rename_i a b rest heq
      split at h
      · split at h
        · simp at h
        · rename_i ha hm e2 port3 hr
          simp only [Prod.mk.injEq, Except.error.injEq] at h
          obtain ⟨h1, h2⟩ := h
          subst h2
          cases e; cases e2
          obtain ⟨hc, hl⟩ := ih _ _ hr
          have hc2 : max port.clock a + TRANSPORT_TIMEOUT_MS ≤ port3.clock := hc
          have hl2 : port3.stream.length ≤ rest.length := hl
          constructor
          · exact le_trans (Nat.add_le_add_right (le_max_left _ _) _) hc2
          · rw [heq]
            simp only [List.length_cons]
            omega
      · rename_i ha
        simp only [Prod.mk.injEq, Except.error.injEq] at h
        obtain ⟨h1, h2⟩ := h
        subst h2
        simp [heq]

/-- The error values `Meter::read` can produce, one per `anyhow!` message or
propagated error in `src/meter.rs`: "Serial port is not open", "Failed to
sync within timeout.", the propagated `TimedOut` I/O error from the payload
`read_exact`, and decode errors propagated unchanged from `Reading::parse`. -/
inductive ReadError
  | notOpen
  | syncTimeout
  | payloadTimedOut
  | decode (e : DecodeError)
deriving DecidableEq, Repr

/-- The `while start.elapsed() < self._sync_timeout` loop of `Meter::read`:
read 5 bytes; if they equal the sync marker, read the remaining 51 bytes
(a failure there propagates immediately) and hand the 56-byte buffer to
`Reading::parse` (whose `SystemTime::now()` is the clock at that moment);
on a mismatch, or a timed-out transport read, loop.  Leaving the loop yields
the sync-timeout error. -/
def syncLoop (deadline : Nat) (start : Nat) (port : PortState) :
    Except ReadError Reading × PortState :=
  if h : port.clock - start < deadline then
    match hr : readExact port 5 with
    | (Except.ok syncBuf, port2) =>
      if syncBuf = Reading.SYNC then
        match readExact port2 51 with
        | (Except.ok restBuf, port3) =>
          ((Reading.parse port3.clock (syncBuf ++ restBuf)).mapError ReadError.decode,
           port3)
        | (Except.error _, port3) => (Except.error ReadError.payloadTimedOut, port3)
      else
        syncLoop deadline start port2
    | (Except.error _, port2) => syncLoop deadline start port2
  else
    (Except.error ReadError.syncTimeout, port)
termination_by port.stream.length + (start + deadline - port.clock)
decreasing_by
  · obtain ⟨hl, _, hc⟩ := readExact_ok _ _ _ _ hr
    omega
  · obtain ⟨hc, hl⟩ := readExact_err _ _ _ _ hr
    have : TRANSPORT_TIMEOUT_MS = 1000 := rfl
    omega

/-- `Meter` from `src/meter.rs`: the stored sync deadline, the port name,
and the optional open serial connection. -/
structure Meter where
  sync_timeout : Nat
  port : String
  serial : Option PortState
deriving DecidableEq, Repr

/-- `Meter::new`. -/
def Meter.new (port : String) : Meter :=
  { sync_timeout := SYNC_TIMEOUT_MS, port := port, serial := none }

/-- `Meter::read` from `src/meter.rs`.  With no open connection it returns
the "Serial port is not open" error without touching the state; otherwise it
runs the sync loop with `start` captured at entry, returning the result and
the advanced port state. -/
def Meter.read (m : Meter) : Except ReadError Reading × Meter :=
  match m.serial with
  | none => (Except.error ReadError.notOpen, m)
  | some port =>
    let r := syncLoop m.sync_timeout port.clock port
    (r.1, { m with serial := some r.2 })

/-- `Meter::close`: drops the serial connection; idempotent. -/
def Meter.close (m : Meter) : Meter :=
  { m with serial := none }

/-- Reduction of an `Except` bind on a success value. -/
@[simp] theorem excBind_ok {ε α β : Type} (a : α) (f : α → Except ε β) :
    (Except.ok a : Except ε α) >>= f = f a := rfl

/-- Reduction of an `Except` bind on an error value. -/
@[simp] theorem excBind_error {ε α β : Type} (e : ε) (f : α → Except ε β) :
    (Except.error e : Except ε α) >>= f = Except.error e := rfl

/-- Little-endian 32-bit field of `buf` starting at byte offset `i`
(an f32 bit pattern or a u32, exactly as `from_le_bytes` assembles it). -/
def leF32At (buf : List Nat) (i : Nat) : Nat :=
  buf.getD i 0 + buf.getD (i + 1) 0 * 256 + buf.getD (i + 2) 0 * 65536 +
    buf.getD (i + 3) 0 * 16777216

/-- One channel's decoded value: a nonzero error-flag byte at `flagOff`
takes precedence (yielding `f32::NAN`) over the float at `floatOff`. -/
def chanVal (buf : List Nat) (floatOff flagOff : Nat) : Nat :=
  if buf.getD flagOff 0 ≠ 0 then Reading.NAN32 else leF32At buf floatOff

/-- The decoder as a direct field map at the byte offsets `Reading::parse`
actually consumes: sync 0–4, current floats 5–20, current flags 21–24, held
floats 25–40, held flags 41–44, meter temperature 45–48, unknown u32 49–52,
hold-type byte 53, trailer 54–55 — 56 bytes in all.  `parse_eq_layout`
below proves this equal to the cursor-threading `Reading.parse`. -/
def parseByLayout (now : Nat) (buf : List Nat) : Except DecodeError Reading :=
  if buf.length ≠ 56 then Except.error DecodeError.wrongSize
  else if buf.take 5 ≠ Reading.SYNC then Except.error DecodeError.badSync
  else
    match HoldType.tryFrom (buf.getD 53 0) with
    | none => Except.error DecodeError.invalidHoldType
    | some ht =>
      Except.ok
        { timestamp := now
          current_temps_c :=
            [chanVal buf 5 21, chanVal buf 9 22, chanVal buf 13 23, chanVal buf 17 24]
          held_temps_c :=
            [chanVal buf 25 41, chanVal buf 29 42, chanVal buf 33 43, chanVal buf 37 44]
          hold_type := ht
          meter_temp_c := leF32At buf 45 }

/-- An in-bounds `unpack_f32` returns the little-endian field and the
advanced cursor. -/
theorem unpack_f32_ok (buf : List Nat) (o r : Nat) (h : o + 4 ≤ buf.length)
    (hr : o + 4 = r) : Reading.unpack_f32 buf o = Except.ok (leF32At buf o, r) := by
  unfold Reading.unpack_f32
  rw [if_neg (by omega), hr]
  rfl

/-- An in-bounds `unpack_u32` returns the little-endian field and the
advanced cursor. -/
theorem unpack_u32_ok (buf : List Nat) (o r : Nat) (h : o + 4 ≤ buf.length)
    (hr : o + 4 = r) : Reading.unpack_u32 buf o = Except.ok (leF32At buf o, r) := by
  unfold Reading.unpack_u32
  rw [if_neg (by omega), hr]
  rfl

/-- An in-bounds `unpack_u8` returns the byte and the advanced cursor. -/
theorem unpack_u8_ok (buf : List Nat) (o r : Nat) (h : o + 1 ≤ buf.length)
    (hr : o + 1 = r) : Reading.unpack_u8 buf o = Except.ok (buf.getD o 0, r) := by
  unfold Reading.unpack_u8
  rw [if_neg (by omega), hr]

/-- An in-bounds `unpack_u16` returns the little-endian field and the
advanced cursor. -/
theorem unpack_u16_ok (buf : List Nat) (o r : Nat) (h : o + 2 ≤ buf.length)
    (hr : o + 2 = r) :
    Reading.unpack_u16 buf o = Except.ok (buf.getD o 0 + buf.getD (o + 1) 0 * 256, r) := by
  unfold Reading.unpack_u16
  rw [if_neg (by omega), hr]

set_option maxHeartbeats 2000000 in
/-- On a 56-byte buffer the cursor-threading `Reading.parse` agrees with the
direct field map `parseByLayout`. -/
theorem parse_eq_layout (now : Nat) (buf : List Nat) (h56 : buf.length = 56) :
    Reading.parse now buf = parseByLayout now buf := by
  rcases buf with _ | ⟨b0, buf⟩
  · simp only [List.length_cons, List.length_nil] at h56; omega
  rcases buf with _ | ⟨b1, buf⟩
  · simp only [List.length_cons, List.length_nil] at h56; omega
  rcases buf with _ | ⟨b2, buf⟩
  · simp only [List.length_cons, List.length_nil] at h56; omega
  rcases buf with _ | ⟨b3, buf⟩
  · simp only [List.length_cons, List.length_nil] at h56; omega
  rcases buf with _ | ⟨b4, buf⟩
  · simp only [List.length_cons, List.length_nil] at h56; omega
  rcases buf with _ | ⟨b5, buf⟩
  · simp only [List.length_cons, List.length_nil] at h56; omega
  rcases buf with _ | ⟨b6, buf⟩
  · simp only [List.length_cons, List.length_nil] at h56; omega
  rcases buf with _ | ⟨b7, buf⟩
  · simp only [List.length_cons, List.length_nil] at h56; omega
  rcases buf with _ | ⟨b8, buf⟩
  · simp only [List.length_cons, List.length_nil] at h56; omega
  rcases buf with _ | ⟨b9, buf⟩
  · simp only [List.length_cons, List.length_nil] at h56; omega
  rcases buf with _ | ⟨b10, buf⟩
  · simp only [List.length_cons, List.length_nil] at h56; omega
  rcases buf with _ | ⟨b11, buf⟩
  · simp only [List.length_cons, List.length_nil] at h56; omega
  rcases buf with _ | ⟨b12, buf⟩
  · simp only [List.length_cons, List.length_nil] at h56; omega
  rcases buf with _ | ⟨b13, buf⟩
  · simp only [List.length_cons, List.length_nil] at h56; omega
  rcases buf with _ | ⟨b14, buf⟩
  · simp only [List.length_cons, List.length_nil] at h56; omega
  rcases buf with _ | ⟨b15, buf⟩
  · simp only [List.length_cons, List.length_nil] at h56; omega
  rcases buf with _ | ⟨b16, buf⟩
  · simp only [List.length_cons, List.length_nil] at h56; omega
  rcases buf with _ | ⟨b17, buf⟩
  · simp only [List.length_cons, List.length_nil] at h56; omega
  rcases buf with _ | ⟨b18, buf⟩
  · simp only [List.length_cons, List.length_nil] at h56; omega
  rcases buf with _ | ⟨b19, buf⟩
  · simp only [List.length_cons, List.length_nil] at h56; omega
  rcases buf with _ | ⟨b20, buf⟩
  · simp only [List.length_cons, List.length_nil] at h56; omega
  rcases buf with _ | ⟨b21, buf⟩
  · simp only [List.length_cons, List.length_nil] at h56; omega
  rcases buf with _ | ⟨b22, buf⟩
  · simp only [List.length_cons, List.length_nil] at h56; omega
  rcases buf with _ | ⟨b23, buf⟩
  · simp only [List.length_cons, List.length_nil] at h56; omega
  rcases buf with _ | ⟨b24, buf⟩
  · simp only [List.length_cons, List.length_nil] at h56; omega
  rcases buf with _ | ⟨b25, buf⟩
  · simp only [List.length_cons, List.length_nil] at h56; omega
  rcases buf with _ | ⟨b26, buf⟩
  · simp only [List.length_cons, List.length_nil] at h56; omega
  rcases buf with _ | ⟨b27, buf⟩
  · simp only [List.length_cons, List.length_nil] at h56; omega
  rcases buf with _ | ⟨b28, buf⟩
  · simp only [List.length_cons, List.length_nil] at h56; omega
  rcases buf with _ | ⟨b29, buf⟩
  · simp only [List.length_cons, List.length_nil] at h56; omega
  rcases buf with _ | ⟨b30, buf⟩
  · simp only [List.length_cons, List.length_nil] at h56; omega
  rcases buf with _ | ⟨b31, buf⟩
  · simp only [List.length_cons, List.length_nil] at h56; omega
  rcases buf with _ | ⟨b32, buf⟩
  · simp only [List.length_cons, List.length_nil] at h56; omega
  rcases buf with _ | ⟨b33, buf⟩
  · simp only [List.length_cons, List.length_nil] at h56; omega
  rcases buf with _ | ⟨b34, buf⟩
  · simp only [List.length_cons, List.length_nil] at h56; omega
  rcases buf with _ | ⟨b35, buf⟩
  · simp only [List.length_cons, List.length_nil] at h56; omega
  rcases buf with _ | ⟨b36, buf⟩
  · simp only [List.length_cons, List.length_nil] at h56; omega
  rcases buf with _ | ⟨b37, buf⟩
  · simp only [List.length_cons, List.length_nil] at h56; omega
  rcases buf with _ | ⟨b38, buf⟩
  · simp only [List.length_cons, List.length_nil] at h56; omega
  rcases buf with _ | ⟨b39, buf⟩
  · simp only [List.length_cons, List.length_nil] at h56; omega
  rcases buf with _ | ⟨b40, buf⟩
  · simp only [List.length_cons, List.length_nil] at h56; omega
  rcases buf with _ | ⟨b41, buf⟩
  · simp only [List.length_cons, List.length_nil] at h56; omega
  rcases buf with _ | ⟨b42, buf⟩
  · simp only [List.length_cons, List.length_nil] at h56; omega
  rcases buf with _ | ⟨b43, buf⟩
  · simp only [List.length_cons, List.length_nil] at h56; omega
  rcases buf with _ | ⟨b44, buf⟩
  · simp only [List.length_cons, List.length_nil] at h56; omega
  rcases buf with _ | ⟨b45, buf⟩
  · simp only [List.length_cons, List.length_nil] at h56; omega
  rcases buf with _ | ⟨b46, buf⟩
  · simp only [List.length_cons, List.length_nil] at h56; omega
  rcases buf with _ | ⟨b47, buf⟩
  · simp only [List.length_cons, List.length_nil] at h56; omega
  rcases buf with _ | ⟨b48, buf⟩
  · simp only [List.length_cons, List.length_nil] at h56; omega
  rcases buf with _ | ⟨b49, buf⟩
  · simp only [List.length_cons, List.length_nil] at h56; omega
  rcases buf with _ | ⟨b50, buf⟩
  · simp only [List.length_cons, List.length_nil] at h56; omega
  rcases buf with _ | ⟨b51, buf⟩
  · simp only [List.length_cons, List.length_nil] at h56; omega
  rcases buf with _ | ⟨b52, buf⟩
  · simp only [List.length_cons, List.length_nil] at h56; omega
  rcases buf with _ | ⟨b53, buf⟩
  · simp only [List.length_cons, List.length_nil] at h56; omega
  rcases buf with _ | ⟨b54, buf⟩
  · simp only [List.length_cons, List.length_nil] at h56; omega
  rcases buf with _ | ⟨b55, buf⟩
  · simp only [List.length_cons, List.length_nil] at h56; omega
  rcases buf with _ | ⟨bex, buf⟩
  case cons => simp only [List.length_cons, List.length_nil] at h56; omega
  rcases b53 with _ | _ | _ | _ | n <;> rfl

/-- `Reading.parse` only succeeds on 56-byte buffers (the length check is
the first step). -/
theorem parse_ok_length (now : Nat) (buf : List Nat) (r : Reading)
    (h : Reading.parse now buf = Except.ok r) : buf.length = 56 := by
  by_contra hne
  unfold Reading.parse at h
  rw [if_pos (by simpa [Reading.N_BYTES] using hne)] at h
  exact Except.noConfusion h

/-- `HoldType::try_from` rejects every code above 3. -/
theorem HoldType.tryFrom_eq_none (v : Nat) (hv : 3 < v) : HoldType.tryFrom v = none := by
  rcases v with _ | _ | _ | _ | n
  · omega
  · omega
  · omega
  · omega
  · rfl

/-- A bounds-checked little-endian 32-bit read at a fixed offset, the check
being the one the code's unpack helpers perform. -/
def checkedF32 (buf : List Nat) (o : Nat) : Except DecodeError Nat :=
  if o + 4 > buf.length then Except.error DecodeError.readBeyondBuffer
  else Except.ok (leF32At buf o)

/-- A bounds-checked single-byte read at a fixed offset. -/
def checkedU8 (buf : List Nat) (o : Nat) : Except DecodeError Nat :=
  if o + 1 > buf.length then Except.error DecodeError.readBeyondBuffer
  else Except.ok (buf.getD o 0)

/-- A bounds-checked little-endian 16-bit read at a fixed offset. -/
def checkedU16 (buf : List Nat) (o : Nat) : Except DecodeError Nat :=
  if o + 2 > buf.length then Except.error DecodeError.readBeyondBuffer
  else Except.ok (buf.getD o 0 + buf.getD (o + 1) 0 * 256)

/-- A bounds-checked little-endian 32-bit read at a fixed offset. -/
def checkedU32 (buf : List Nat) (o : Nat) : Except DecodeError Nat :=
  if o + 4 > buf.length then Except.error DecodeError.readBeyondBuffer
  else Except.ok (leF32At buf o)

/-- The decoder that follows the words of the spec's frame-layout table, for
comparison with `Reading.parse` (claim C5): each field is read at the start
offset the table gives it — current floats from 5, current flags 25–28,
held floats from 29, held flags 49–52, meter temperature at 53, unknown
32-bit field at 57, hold-type byte at 61, 16-bit trailer at 62–63 — each
read under the same bounds check the code's unpack helpers perform, against
the table's stated total length of exactly 56 bytes. -/
def parseSpecTable (now : Nat) (buf : List Nat) : Except DecodeError Reading :=
  if buf.length ≠ 56 then Except.error DecodeError.wrongSize
  else if buf.take 5 ≠ Reading.SYNC then Except.error DecodeError.badSync
  else do
    let c0 ← checkedF32 buf 5
    let c1 ← checkedF32 buf 9
    let c2 ← checkedF32 buf 13
    let c3 ← checkedF32 buf 17
    let e0 ← checkedU8 buf 25
    let e1 ← checkedU8 buf 26
    let e2 ← checkedU8 buf 27
    let e3 ← checkedU8 buf 28
    let h0 ← checkedF32 buf 29
    let h1 ← checkedF32 buf 33
    let h2 ← checkedF32 buf 37
    let h3 ← checkedF32 buf 41
    let g0 ← checkedU8 buf 49
    let g1 ← checkedU8 buf 50
    let g2 ← checkedU8 buf 51
    let g3 ← checkedU8 buf 52
    let meter_temp_c ← checkedF32 buf 53
    let _ ← checkedU32 buf 57
    let hraw ← checkedU8 buf 61
    let hold_type ← match HoldType.tryFrom hraw with
      | some h => Except.ok h
      | none => Except.error DecodeError.invalidHoldType
    let _ ← checkedU16 buf 62
    Except.ok
      { timestamp := now
        current_temps_c :=
          [if e0 ≠ 0 then Reading.NAN32 else c0, if e1 ≠ 0 then Reading.NAN32 else c1,
           if e2 ≠ 0 then Reading.NAN32 else c2, if e3 ≠ 0 then Reading.NAN32 else c3]
        held_temps_c :=
          [if g0 ≠ 0 then Reading.NAN32 else h0, if g1 ≠ 0 then Reading.NAN32 else h1,
           if g2 ≠ 0 then Reading.NAN32 else h2, if g3 ≠ 0 then Reading.NAN32 else h3]
        hold_type := hold_type
        meter_temp_c := meter_temp_c }

/-- The 56-byte frame of the spec's round-trip scenario, byte for byte the
unit test `test_parse_reading_from_bytes`. -/
def testBytes : List Nat :=
  [0xaa, 0x55, 0x00, 0x34, 0x01, 0x98, 0x94, 0xd5,
   0x41, 0x00, 0x00, 0x00, 0x00, 0x2d, 0x02, 0xd5,
   0x41, 0x6c, 0x25, 0x85, 0x42, 0x00, 0x30, 0x30,
   0x30, 0x98, 0x94, 0xd5, 0x41, 0x00, 0x00, 0x00,
   0x00, 0x2d, 0x02, 0xd5, 0x41, 0x6c, 0x25, 0x85,
   0x42, 0x00, 0x00, 0x00, 0x00, 0x00, 0x80, 0xd2,
   0x41, 0x00, 0x00, 0x00, 0x00, 0x00, 0x0d, 0x15]

/-- What decoding `testBytes` produces at capture instant `now`:
bit patterns 0x41D59498 = 26.697556, 0x41D5022D = 26.626062,
0x4285256C = 66.57309, 0x41D28000 = 26.3125, and the quiet NaN for the
three flagged current channels. -/
def testReading (now : Nat) : Reading :=
  { timestamp := now
    current_temps_c := [0x41D59498, Reading.NAN32, Reading.NAN32, Reading.NAN32]
    held_temps_c := [0x41D59498, 0, 0x41D5022D, 0x4285256C]
    hold_type := HoldType.Current
    meter_temp_c := 0x41D28000 }

/-- Sync marker, 48 zero bytes, then 0xFF at byte offset 53 (the hold-type
position) and two zero trailer bytes: the spec's invalid-hold-type
scenario, byte for byte the unit test `test_parse_invalid_hold_type`. -/
def invalidHoldBytes : List Nat :=
  Reading.SYNC ++ (List.replicate 48 0 ++ [0xff, 0, 0])

/-- Sync marker, 48 zero bytes, hold-type byte 1 at offset 53, zero
trailer: decodes with `hold_type = Maximum`. -/
def holdMaxBytes : List Nat :=
  Reading.SYNC ++ (List.replicate 48 0 ++ [1, 0, 0])

/-- A timed stream delivering `bytes` in order, all becoming available at
instant `t` (ms). -/
def atTime (t : Nat) (bytes : List Nat) : List (Nat × Nat) :=
  bytes.map (fun b => (t, b))

/-- A meter as `Meter::new` plus a successful `Meter::open` leave it: the
5-second sync deadline, an open port at clock 0 with the given pending
stream. -/
def meterOn (s : List (Nat × Nat)) : Meter :=
  { sync_timeout := SYNC_TIMEOUT_MS
    port := "/dev/ttyUSB0"
    serial := some { stream := s, clock := 0 } }

set_option maxHeartbeats 4000000 in
/-- Claim C1: the spec requires `Meter::read` to synchronize after any N
noise bytes (no sync sequence inside the noise) followed by a well-formed
frame.  The code reads in 5-byte chunks and discards all 5 on mismatch, so
it only realigns when N is a multiple of 5.  At the failing input — one
noise byte 0x00 then the well-formed `testBytes` frame, all immediately
available — the read never matches the marker and returns the sync-timeout
error, while the same frame with zero noise bytes decodes fine. -/
theorem C1_noise_misalignment :
    (Meter.read (meterOn (atTime 0 (0x00 :: testBytes)))).1 =
      Except.error ReadError.syncTimeout ∧
    (Meter.read (meterOn (atTime 0 testBytes))).1 =
      Except.ok (testReading 0) := by
  constructor
  · simp [Meter.read, meterOn, syncLoop, readExact, atTime, testBytes,
      Reading.SYNC, TRANSPORT_TIMEOUT_MS, SYNC_TIMEOUT_MS]
  · simp only [Meter.read, meterOn, atTime, testBytes, List.map]
    rw [syncLoop]
    simp [readExact, Reading.SYNC, TRANSPORT_TIMEOUT_MS, SYNC_TIMEOUT_MS]
    rfl

/-- Claim C2 (counterexample): the claim gives the payload phase its own
restarting 5-second deadline.  In the code the payload wait is a single
transport `read_exact` bounded by the 1-second per-operation timeout: a
stream whose sync marker is available at once but whose 51 payload bytes
all arrive at 2000 ms — well inside any 5-second deadline — still fails
with the propagated payload timeout instead of returning the frame. -/
theorem C2_payload_deadline_counterexample :
    (Meter.read (meterOn (atTime 0 Reading.SYNC ++ atTime 2000 (testBytes.drop 5)))).1 =
      Except.error ReadError.payloadTimedOut := by
  simp [Meter.read, meterOn, syncLoop, readExact, atTime, testBytes, Reading.SYNC,
    TRANSPORT_TIMEOUT_MS, SYNC_TIMEOUT_MS]

/-- Claim C2 (amended): the two timeout failures are distinguished — a
stream that delivers no bytes before the synchronization deadline yields
the sync-timeout error, while a stream that matches the sync marker and
then stalls yields the distinct propagated payload-timeout error; the
payload wait is bounded by the transport's 1-second per-operation timeout,
not by a separate 5-second payload deadline. -/
theorem C2_timeout_distinction :
    (Meter.read (meterOn [])).1 = Except.error ReadError.syncTimeout ∧
    (Meter.read (meterOn (atTime 0 Reading.SYNC))).1 =
      Except.error ReadError.payloadTimedOut ∧
    ReadError.syncTimeout ≠ ReadError.payloadTimedOut := by
  refine ⟨?_, ?_, by decide⟩
  · simp [Meter.read, meterOn, syncLoop, readExact, Reading.SYNC,
      TRANSPORT_TIMEOUT_MS, SYNC_TIMEOUT_MS]
  · simp [Meter.read, meterOn, syncLoop, readExact, atTime, Reading.SYNC,
      TRANSPORT_TIMEOUT_MS, SYNC_TIMEOUT_MS]

/-- Claim C3: for every buffer the decoder accepts and each of the 8
channels, a nonzero error-flag byte (offsets 21–24 current, 41–44 held)
makes the decoded channel NaN regardless of the transmitted float bytes,
and a zero flag byte leaves the channel the exact little-endian 32-bit
decoding of its 4 value bytes (offsets 5+4i current, 25+4i held). -/
theorem C3_error_flag_semantics (now : Nat) (buf : List Nat) (r : Reading) (i : Nat)
    (hi : i < 4) (h : Reading.parse now buf = Except.ok r) :
    (buf.getD (21 + i) 0 ≠ 0 → Reading.isNaN32 (r.current_temps_c.getD i 0)) ∧
    (buf.getD (21 + i) 0 = 0 → r.current_temps_c.getD i 0 = leF32At buf (5 + 4 * i)) ∧
    (buf.getD (41 + i) 0 ≠ 0 → Reading.isNaN32 (r.held_temps_c.getD i 0)) ∧
    (buf.getD (41 + i) 0 = 0 → r.held_temps_c.getD i 0 = leF32At buf (25 + 4 * i)) := by
  have h56 := parse_ok_length now buf r h
  rw [parse_eq_layout now buf h56] at h
  unfold parseByLayout at h
  rw [if_neg (show ¬(buf.length ≠ 56) by simp [h56])] at h
  split at h
  · exact Except.noConfusion h
  split at h
  · exact Except.noConfusion h
  rename_i ht hht
  rw [Except.ok.injEq] at h
  subst h
  interval_cases i <;>
    refine ⟨fun hf => ?_, fun hf => ?_, fun hf => ?_, fun hf => ?_⟩ <;>
    simp at hf <;> simp [chanVal, hf] <;> decide

/-- Witness for C3 at the concrete test frame: current channel 1 carries the
nonzero flag 0x30 and decodes to NaN; held channel 2 carries a zero flag and
decodes bit-for-bit. -/
theorem C3_error_flag_semantics_witness :
    Reading.isNaN32 ((testReading 0).current_temps_c.getD 1 0) ∧
    (testReading 0).held_temps_c.getD 2 0 = leF32At testBytes (25 + 4 * 2) :=
  ⟨(C3_error_flag_semantics 0 testBytes (testReading 0) 1 (by decide) rfl).1 (by decide),
   (C3_error_flag_semantics 0 testBytes (testReading 0) 2 (by decide) rfl).2.2.2 (by decide)⟩

/-- Claim C4: on a 56-byte buffer with a correct sync marker, the hold-type
byte (offset 53) maps 0, 1, 2, 3 to Current, Maximum, Minimum, Average, and
every other value fails with the invalid-hold-type error — unknown codes
are rejected, never defaulted. -/
theorem C4_hold_type_mapping (now : Nat) (buf : List Nat) (h56 : buf.length = 56)
    (hsync : buf.take 5 = Reading.SYNC) :
    (buf.getD 53 0 = 0 →
      ∃ r, Reading.parse now buf = Except.ok r ∧ r.hold_type = HoldType.Current) ∧
    (buf.getD 53 0 = 1 →
      ∃ r, Reading.parse now buf = Except.ok r ∧ r.hold_type = HoldType.Maximum) ∧
    (buf.getD 53 0 = 2 →
      ∃ r, Reading.parse now buf = Except.ok r ∧ r.hold_type = HoldType.Minimum) ∧
    (buf.getD 53 0 = 3 →
      ∃ r, Reading.parse now buf = Except.ok r ∧ r.hold_type = HoldType.Average) ∧
    (3 < buf.getD 53 0 →
      Reading.parse now buf = Except.error DecodeError.invalidHoldType) := by
  rw [parse_eq_layout now buf h56]
  unfold parseByLayout
  rw [if_neg (show ¬(buf.length ≠ 56) by simp [h56]),
      if_neg (show ¬(buf.take 5 ≠ Reading.SYNC) by simp [hsync])]
  refine ⟨fun hb => ?_, fun hb => ?_, fun hb => ?_, fun hb => ?_, fun hb => ?_⟩
  · rw [hb]; exact ⟨_, rfl, rfl⟩
  · rw [hb]; exact ⟨_, rfl, rfl⟩
  · rw [hb]; exact ⟨_, rfl, rfl⟩
  · rw [hb]; exact ⟨_, rfl, rfl⟩
  · rw [HoldType.tryFrom_eq_none (buf.getD 53 0) hb]

/-- Witness for C4 at the spec's concrete scenario: correct sync, all other
bytes zero, hold-type byte 0xFF — decoding fails with the invalid-hold-type
error. -/
theorem C4_hold_type_mapping_witness :
    Reading.parse 0 invalidHoldBytes = Except.error DecodeError.invalidHoldType :=
  (C4_hold_type_mapping 0 invalidHoldBytes (by decide) (by decide)).2.2.2.2 (by decide)

/-- Claim C5 (counterexample): the decoder does not read the fields at the
spec table's offsets.  A decoder built from the table's words fails out of
bounds on the valid 56-byte test frame (its meter-temperature, hold-type
and trailer offsets 53–56, 61 and 62–63 reach past a 56-byte buffer),
while the code decodes that frame; and the hold-type byte demonstrably
lives at offset 53, not 61: flipping byte 53 to 1 yields Maximum. -/
theorem C5_spec_table_counterexample :
    parseSpecTable 0 testBytes = Except.error DecodeError.readBeyondBuffer ∧
    Reading.parse 0 testBytes = Except.ok (testReading 0) ∧
    Reading.parse 0 holdMaxBytes =
      Except.ok
        { timestamp := 0
          current_temps_c := [0, 0, 0, 0]
          held_temps_c := [0, 0, 0, 0]
          hold_type := HoldType.Maximum
          meter_temp_c := 0 } ∧
    holdMaxBytes.length = 56 :=
  ⟨rfl, rfl, rfl, rfl⟩

/-- Claim C5 (amended): the decoder interprets the frame at the offsets the
code actually consumes — sync 0–4, current floats 5–20, current flags
21–24, held floats 25–40, held flags 41–44, meter temperature 45–48,
unknown 32-bit field 49–52, hold-type byte 53, 16-bit trailer 54–55 — for a
total of exactly 56 bytes: on every 56-byte buffer `Reading.parse` equals
the direct field map `parseByLayout` at those offsets. -/
theorem C5_actual_layout (now : Nat) (buf : List Nat) (h56 : buf.length = 56) :
    Reading.parse now buf = parseByLayout now buf :=
  parse_eq_layout now buf h56

/-- Witness for C5 (amended) at the concrete test frame. -/
theorem C5_actual_layout_witness :
    testBytes.length = 56 ∧ Reading.parse 0 testBytes = parseByLayout 0 testBytes :=
  ⟨rfl, C5_actual_layout 0 testBytes rfl⟩

/-- Claim C6: decoding the spec's concrete 56-byte buffer succeeds with
current_temps = [26.697556, NaN, NaN, NaN] (bit patterns 0x41D59498 and the
quiet NaN 0x7FC00000), held_temps = [26.697556, 0.0, 26.626062, 66.57309]
(0x41D59498, 0, 0x41D5022D, 0x4285256C), meter_temp = 26.3125 (0x41D28000)
and hold_type = Current; `isNaN32` certifies the NaN entries. -/
theorem C6_concrete_roundtrip (now : Nat) :
    Reading.parse now testBytes =
      Except.ok
        { timestamp := now
          current_temps_c := [0x41D59498, Reading.NAN32, Reading.NAN32, Reading.NAN32]
          held_temps_c := [0x41D59498, 0, 0x41D5022D, 0x4285256C]
          hold_type := HoldType.Current
          meter_temp_c := 0x41D28000 } ∧
    Reading.isNaN32 Reading.NAN32 :=
  ⟨rfl, by decide⟩

/-- Claim C7: every 56-byte buffer whose first 5 bytes differ from the sync
marker is rejected with the bad-sync error, whatever the other 51 bytes. -/
theorem C7_bad_sync (now : Nat) (buf : List Nat) (h56 : buf.length = 56)
    (hs : buf.take 5 ≠ Reading.SYNC) :
    Reading.parse now buf = Except.error DecodeError.badSync := by
  rw [parse_eq_layout now buf h56]
  unfold parseByLayout
  rw [if_neg (show ¬(buf.length ≠ 56) by simp [h56]), if_pos hs]

/-- Witness for C7 at the spec's concrete scenario: the all-zero 56-byte
buffer fails with the bad-sync error. -/
theorem C7_bad_sync_witness :
    (List.replicate 56 0).length = 56 ∧
    Reading.parse 0 (List.replicate 56 0) = Except.error DecodeError.badSync :=
  ⟨rfl, C7_bad_sync 0 (List.replicate 56 0) rfl (by decide)⟩

/-- Claim C8: on every 56-byte buffer the fixed-width unpacking consumes
exactly the 56 bytes, so the final cursor assertion never fires and neither
the incomplete-parse error nor the out-of-bounds error of the unpack
helpers is reachable. -/
theorem C8_cursor_always_complete (now : Nat) (buf : List Nat) (h56 : buf.length = 56) :
    Reading.parse now buf ≠ Except.error DecodeError.incompleteParse ∧
    Reading.parse now buf ≠ Except.error DecodeError.readBeyondBuffer := by
  rw [parse_eq_layout now buf h56]
  unfold parseByLayout
  rw [if_neg (show ¬(buf.length ≠ 56) by simp [h56])]
  by_cases hs : buf.take 5 ≠ Reading.SYNC
  · rw [if_pos hs]
    exact ⟨fun h => by simp at h, fun h => by simp at h⟩
  · rw [if_neg hs]
    cases hht : HoldType.tryFrom (buf.getD 53 0) <;> simp [hht]

/-- Witness for C8 at a concrete buffer. -/
theorem C8_cursor_always_complete_witness :
    (List.replicate 56 0).length = 56 ∧
    Reading.parse 0 (List.replicate 56 0) ≠ Except.error DecodeError.incompleteParse :=
  ⟨rfl, (C8_cursor_always_complete 0 (List.replicate 56 0) rfl).1⟩

/-- Claim C9 (counterexample): `Reading::parse` stamps the reading with
`SystemTime::now()`, so two invocations on the same buffer at wall-clock
instants 0 and 1 return readings that differ (in the timestamp field) —
the results are not equal in every field. -/
theorem C9_timestamp_counterexample :
    Reading.parse 0 testBytes ≠ Reading.parse 1 testBytes := by
  intro h
  rw [show Reading.parse 0 testBytes = Except.ok (testReading 0) from rfl,
      show Reading.parse 1 testBytes = Except.ok (testReading 1) from rfl] at h
  simp [testReading] at h

/-- Claim C9 (amended): the decoder is pure and deterministic in every field
except the capture timestamp, which records the invocation instant: for any
two invocation instants the results are the same error, or readings equal
after retiming — no other field depends on anything but the buffer. -/
theorem C9_deterministic_modulo_timestamp (t1 t2 : Nat) (buf : List Nat) :
    Reading.parse t1 buf =
      Except.map (fun r => { r with timestamp := t1 }) (Reading.parse t2 buf) := by
  by_cases h56 : buf.length = 56
  case pos =>
    rw [parse_eq_layout t1 buf h56, parse_eq_layout t2 buf h56]
    unfold parseByLayout
    have hc : ¬(buf.length ≠ 56) := by simp [h56]
    rw [if_neg hc, if_neg hc]
    by_cases hs : buf.take 5 ≠ Reading.SYNC
    · rw [if_pos hs, if_pos hs]
      rfl
    · rw [if_neg hs, if_neg hs]
      cases HoldType.tryFrom (buf.getD 53 0) <;> rfl
  case neg =>
    unfold Reading.parse
    rw [if_pos (show buf.length ≠ Reading.N_BYTES by simpa [Reading.N_BYTES] using h56),
        if_pos (show buf.length ≠ Reading.N_BYTES by simpa [Reading.N_BYTES] using h56)]
    rfl

/-- Claim C10: calling `Meter::read` while no serial connection is held
(before a successful open, or after close) returns the "Serial port is not
open" error and leaves the meter state unchanged. -/
theorem C10_read_not_open (m : Meter) (h : m.serial = none) :
    Meter.read m = (Except.error ReadError.notOpen, m) := by
  unfold Meter.read
  rw [h]

/-- Witness for C10: a freshly constructed meter and a closed meter both
refuse to read and are left unchanged. -/
theorem C10_read_not_open_witness :
    Meter.read (Meter.new "/dev/ttyUSB0") =
      (Except.error ReadError.notOpen, Meter.new "/dev/ttyUSB0") ∧
    Meter.read (Meter.close (meterOn [])) =
      (Except.error ReadError.notOpen, Meter.close (meterOn [])) :=
  ⟨C10_read_not_open (Meter.new "/dev/ttyUSB0") rfl,
   C10_read_not_open (Meter.close (meterOn [])) rfl⟩
